import Mathlib

/-!
Shallow embedding of `src/script.js`, the single-page music-player client.

The script keeps a handful of module-level mutable variables (`songs`,
`currentSongIndex`, `isPlaying`, `isShuffleOn`, `isMuted`, `volume`, the two
dragging flags) and mirrors them into DOM state (playlist rows, play/pause
button icons, toast text, song title/artist labels).  We model the whole of
that mutable state as one record `PlayerState` and each event handler of the
script as a state-transformer on it.

Modelling conventions, each noted again at its definition site:
* JS numbers are modelled as `ℚ` (volume, times, durations) or `ℤ`
  (indices).  JS `%` on integers is truncation-signed remainder, `Int.tmod`.
* The browser's `audioPlayer.play()` returns a promise that may reject; every
  transformer that can call `play` takes a `Bool` oracle `ok` telling whether
  that call resolves.
* `Math.floor(Math.random() * songs.length)` produces an arbitrary value in
  `[0, songs.length)`; we model the random source as a stream `r : ℕ → ℕ`
  read modulo `songs.length`.  The `do … while` retry loop of `nextSong` gets
  explicit fuel; exhausting the fuel models divergence of the loop, so the
  transformer for a whole event returns `Option PlayerState`.
* Purely decorative DOM effects that no claim mentions (album-art artwork and
  opacity animation, media-session metadata, song-count label, volume-fill
  width, cursor/particle effects, CSS animation delays, thumbnail markup) are
  not part of the state.
* `setTimeout`/`setInterval` fades (`fadeOut`, `fadeIn`) are modelled by their
  completed effect on `audioPlayer.volume` (ramp to `0`, then back to the
  `volume` flag), sequenced in the order the callbacks run.
-/

/-- Track descriptor as delivered by the `/api/songs` endpoint: `filename`
plus optional `title`, `artist`, `album`, base64 `cover`, and numeric
`duration`.  An absent JSON field is `none`. -/
structure Song where
  filename : String
  title : Option String
  artist : Option String
  album : Option String
  cover : Option String
  duration : Option ℚ
deriving Repr, DecidableEq

/-- State of the native `<audio>` element that the script touches: `src`,
whether it is playing, `currentTime`, `volume` and `muted`. -/
structure AudioState where
  src : String
  playing : Bool
  currentTime : ℚ
  volume : ℚ
  muted : Bool
deriving Repr, DecidableEq

/-- One rendered `.playlist-item` row: the three text nodes produced by
`createPlaylistItem` and whether the row currently has the `active` class. -/
structure PlaylistRow where
  titleText : String
  artistText : String
  durationText : String
  active : Bool
deriving Repr, DecidableEq

/-- The script's mutable module state plus the claim-relevant DOM state.
`fetchLog` records, in order, the URLs requested from the songs endpoint
(`loadSongs` appends to it); `rows` is the rendered playlist in document
order; `playIconVisible`/`pauseIconVisible` mirror the display style of the
two icons inside the play/pause button; `toast` is the last toast message
shown. -/
structure PlayerState where
  songs : List Song
  currentSongIndex : ℤ
  isPlaying : Bool
  isShuffleOn : Bool
  isMuted : Bool
  volume : ℚ
  audio : AudioState
  rows : List PlaylistRow
  songTitleText : String
  songArtistText : String
  playIconVisible : Bool
  pauseIconVisible : Bool
  toast : String
  fetchLog : List String
deriving Repr, DecidableEq

/-- `API_BASE` from the configuration block; in production it is the empty
string (the hostname test only selects a host prefix, which no claim
depends on). -/
def API_BASE : String := ""

/-- Browser primitive `encodeURIComponent`, modelled as the identity on the
percent-encoding-free filenames we reason about; no claim depends on the
escaping itself, only on which filename's URL is requested. -/
def encodeURIComponent (s : String) : String := s

/-- JS truthiness-based defaulting `x || d` for an optional string field:
`undefined`/missing and the empty string both fall back to the default. -/
def jsOrString (o : Option String) (d : String) : String :=
  match o with
  | none => d
  | some t => if t = "" then d else t

/-- JS truncation toward zero, `Math.trunc` / the rounding used by `%`. -/
def jsTrunc (q : ℚ) : ℤ :=
  if 0 ≤ q then ⌊q⌋ else -⌊-q⌋

/-- JS `%` on numbers (fmod with the sign of the dividend):
`a % b = a - b * trunc (a / b)`. -/
def jsFmod (a b : ℚ) : ℚ :=
  a - b * jsTrunc (a / b)

/-- `String.padStart(2, '0')` as applied to a decimal rendering. -/
def padTwo (s : String) : String :=
  if s.length < 2 then "0" ++ s else s

/-- `formatTime(seconds)`: `MM:SS` with seconds zero-padded.  The `isNaN`
guard of the source is unrepresentable over `ℚ` (no NaN) and is dropped. -/
def formatTime (seconds : ℚ) : String :=
  let mins : ℤ := ⌊seconds / 60⌋
  let secs : ℤ := ⌊jsFmod seconds 60⌋
  toString mins ++ ":" ++ padTwo (toString secs)

/-- `showToast(message)`: the toast text node gets the message (the 2-second
auto-hide timer only toggles a CSS class and is not modelled). -/
def showToast (s : PlayerState) (message : String) : PlayerState :=
  { s with toast := message }

/-- `updatePlayPauseButton()`: shows exactly one of the two icons according
to `isPlaying`. -/
def updatePlayPauseButton (s : PlayerState) : PlayerState :=
  if s.isPlaying then
    { s with playIconVisible := false, pauseIconVisible := true }
  else
    { s with playIconVisible := true, pauseIconVisible := false }

/-- `setSongSource(song)`: points the audio element at
`API_BASE + "/api/music/" + encodeURIComponent(song.filename)`.  Assigning
`src` aborts any current playback, so the element is left non-playing; the
media-session metadata block touches no modelled state. -/
def setSongSource (s : PlayerState) (song : Song) : PlayerState :=
  { s with audio := { s.audio with
      src := API_BASE ++ "/api/music/" ++ encodeURIComponent song.filename,
      playing := false } }

/-- `updateSongInfo(song)`: title label gets `song.title || song.filename`,
artist label gets `song.artist || 'Unknown Artist'` (album-art swap omitted,
it is purely decorative). -/
def updateSongInfo (s : PlayerState) (song : Song) : PlayerState :=
  { s with
      songTitleText := jsOrString song.title song.filename,
      songArtistText := jsOrString song.artist "Unknown Artist" }

/-- The `items.forEach((item, index) => item.classList.toggle('active',
index === currentSongIndex))` traversal of `updatePlaylistUI`, carrying the
running DOM position `k`. -/
def setActive (cur : ℤ) : ℕ → List PlaylistRow → List PlaylistRow
  | _, [] => []
  | k, row :: rest =>
      { row with active := decide ((k : ℤ) = cur) } :: setActive cur (k + 1) rest

/-- `updatePlaylistUI()`: every rendered row gets the `active` class exactly
when its document position equals `currentSongIndex`. -/
def updatePlaylistUI (s : PlayerState) : PlayerState :=
  { s with rows := setActive s.currentSongIndex 0 s.rows }

/-- `play()`: awaits `audioPlayer.play()`.  `ok` is the oracle for whether
that promise resolves.  On success: `isPlaying := true`, button icons update.
On rejection: toast `'Failed to play audio'`, `isPlaying := false`, button
icons update.  (The album-art CSS class is not modelled.) -/
def play (s : PlayerState) (ok : Bool) : PlayerState :=
  if ok then
    updatePlayPauseButton
      { s with audio := { s.audio with playing := true }, isPlaying := true }
  else
    updatePlayPauseButton
      { showToast s "Failed to play audio" with isPlaying := false }

/-- `pause()`: pauses the element, `isPlaying := false`, icons update. -/
def pause (s : PlayerState) : PlayerState :=
  updatePlayPauseButton
    { s with audio := { s.audio with playing := false }, isPlaying := false }

/-- `loadSong(index)`: bounds guard `index < 0 || index >= songs.length`
returns unchanged; otherwise `currentSongIndex := index` and the song is
looked up.  If it `wasPlaying`, the fade path runs: `fadeOut` ramps the
element volume to `0`, then `setSongSource`, then `play()` and `fadeIn`
(ramp back to the `volume` flag); otherwise the source is set directly.
Finally `updateSongInfo` and `updatePlaylistUI`.  The fades and the `play`
call are asynchronous in the source but touch state disjoint from
`updateSongInfo`/`updatePlaylistUI`, so sequencing them first yields the
same final state. -/
def loadSong (s : PlayerState) (index : ℤ) (ok : Bool) : PlayerState :=
  if index < 0 ∨ (s.songs.length : ℤ) ≤ index then s
  else
    match s.songs.get? index.toNat with
    | none => { s with currentSongIndex := index }
    | some song =>
        let s1 := { s with currentSongIndex := index }
        let s2 :=
          if s1.isPlaying then
            let sA := { s1 with audio := { s1.audio with volume := 0 } }
            let sB := play (setSongSource sA song) ok
            { sB with audio := { sB.audio with volume := sB.volume } }
          else setSongSource s1 song
        updatePlaylistUI (updateSongInfo s2 song)

/-- `togglePlayPause()`: toast `'No songs available'` when the list is
empty, otherwise pause if playing else play. -/
def togglePlayPause (s : PlayerState) (ok : Bool) : PlayerState :=
  if s.songs.length = 0 then showToast s "No songs available"
  else if s.isPlaying then pause s else play s ok

/-- The `do { newIndex = Math.floor(Math.random() * songs.length) } while
(newIndex === currentSongIndex)` loop of `nextSong`: draw `r k % n`
repeatedly until the draw differs from `cur`; `none` when the fuel runs out
(the loop has not yet terminated). -/
def rollShuffle (r : ℕ → ℕ) (n : ℕ) (cur : ℤ) : ℕ → ℕ → Option ℕ
  | _, 0 => none
  | k, fuel + 1 =>
      let j := r k % n
      if (j : ℤ) = cur then rollShuffle r n cur (k + 1) fuel else some j

/-- `nextSong()`: no-op on an empty list; with shuffle on and more than one
song, retry random draws until one differs from the current index and load
it (`none` models the loop not terminating within `fuel` draws); with
shuffle on and a single song, nothing happens; with shuffle off, load
`(currentSongIndex + 1) % songs.length` (JS `%` is `Int.tmod`). -/
def nextSong (s : PlayerState) (r : ℕ → ℕ) (fuel : ℕ) (ok : Bool) :
    Option PlayerState :=
  if s.songs.length = 0 then some s
  else if s.isShuffleOn then
    if 1 < s.songs.length then
      match rollShuffle r s.songs.length s.currentSongIndex 0 fuel with
      | none => none
      | some j => some (loadSong s (j : ℤ) ok)
    else some s
  else
    some (loadSong s (Int.tmod (s.currentSongIndex + 1) (s.songs.length : ℤ)) ok)

/-- `prevSong()`: no-op on an empty list; if more than 3 seconds into the
song, restart it (`currentTime := 0`); otherwise load
`(currentSongIndex - 1 + songs.length) % songs.length`. -/
def prevSong (s : PlayerState) (ok : Bool) : PlayerState :=
  if s.songs.length = 0 then s
  else if 3 < s.audio.currentTime then
    { s with audio := { s.audio with currentTime := 0 } }
  else
    loadSong s
      (Int.tmod (s.currentSongIndex - 1 + (s.songs.length : ℤ))
        (s.songs.length : ℤ)) ok

/-- `toggleShuffle()`: flips the flag and toasts (button CSS class not
modelled). -/
def toggleShuffle (s : PlayerState) : PlayerState :=
  let s1 := { s with isShuffleOn := !s.isShuffleOn }
  showToast s1 (if s1.isShuffleOn then "Shuffle on" else "Shuffle off")

/-- `toggleMute()`: flips `isMuted`, mirrors it onto the element, toasts
(volume-button icons not modelled). -/
def toggleMute (s : PlayerState) : PlayerState :=
  let s1 := { s with isMuted := !s.isMuted }
  showToast { s1 with audio := { s1.audio with muted := s1.isMuted } }
    (if s1.isMuted then "Muted" else "Unmuted")

/-- `setVolume(value)`: clamps with `Math.max(0, Math.min(1, value))`,
mirrors onto the element, and un-mutes when the clamped volume is positive
(`updateVolumeUI` touches only unmodelled DOM). -/
def setVolume (s : PlayerState) (value : ℚ) : PlayerState :=
  let v := max 0 (min 1 value)
  let s1 := { s with volume := v, audio := { s.audio with volume := v } }
  if 0 < v ∧ s1.isMuted then
    { s1 with isMuted := false, audio := { s1.audio with muted := false } }
  else s1

/-- `createPlaylistItem(song, index)`: one row showing
`song.title || song.filename`, `song.artist || 'Unknown Artist'`, and
`song.duration ? formatTime(song.duration) : '--:--'` — note the JS
truthiness test, under which a duration of `0` also renders `'--:--'`.
Rows are created without the `active` class.  (Thumbnail markup and the
animation delay are decorative; the click handler the source attaches here
is modelled by `clickRow`.) -/
def createPlaylistItem (song : Song) : PlaylistRow :=
  { titleText := jsOrString song.title song.filename,
    artistText := jsOrString song.artist "Unknown Artist",
    durationText :=
      match song.duration with
      | none => "--:--"
      | some d => if d = 0 then "--:--" else formatTime d,
    active := false }

/-- `renderPlaylist()`: clears the playlist node and appends one row per
song, in list order. -/
def renderPlaylist (s : PlayerState) : PlayerState :=
  { s with rows := s.songs.map createPlaylistItem }

/-- The click handler attached by `createPlaylistItem` to the row created
for `index`: `loadSong(index); if (!isPlaying) play();`.  The `isPlaying`
test runs synchronously, before any fade callback scheduled inside
`loadSong` can change the flag, so it reads the pre-click value. -/
def clickRow (s : PlayerState) (index : ℤ) (ok : Bool) : PlayerState :=
  if s.isPlaying then loadSong s index ok
  else play (loadSong s index ok) ok

/-- `displayEmptyPlaylist()`: replaces the playlist contents with the
"No songs found" message, i.e. no rendered rows remain. -/
def displayEmptyPlaylist (s : PlayerState) : PlayerState :=
  { s with rows := [] }

/-- `loadSongs()`: toasts, then fetches `API_BASE + "/api/songs"` (recorded
in `fetchLog`).  `resp = none` models a network failure or non-OK status
(the `catch` path); `resp = some list` models a successful response with
`data.songs || []` parsed to `list`. -/
def loadSongs (s : PlayerState) (resp : Option (List Song)) : PlayerState :=
  let s0 := showToast s "Loading your music..."
  let s0 := { s0 with fetchLog := s0.fetchLog ++ [API_BASE ++ "/api/songs"] }
  match resp with
  | none =>
      displayEmptyPlaylist
        (showToast s0 "Failed to load music. Check console for details.")
  | some list =>
      let s1 := { s0 with songs := list }
      if list.length = 0 then
        displayEmptyPlaylist
          (showToast s1 "No songs found. Add some music to the /music folder!")
      else
        renderPlaylist
          (showToast s1 (toString list.length ++ " tracks loaded!"))

/-- The module-level initial values of the mutable variables and the DOM
state before `init` runs: `volume = 0.8`, index `0`, everything off. -/
def initialState : PlayerState :=
  { songs := []
    currentSongIndex := 0
    isPlaying := false
    isShuffleOn := false
    isMuted := false
    volume := 0.8
    audio := { src := "", playing := false, currentTime := 0, volume := 1, muted := false }
    rows := []
    songTitleText := ""
    songArtistText := ""
    playIconVisible := true
    pauseIconVisible := false
    toast := ""
    fetchLog := [] }

/-- `init()`: sets `audioPlayer.volume = volume`, then `loadSongs`
(`setupEventListeners` only registers the handlers modelled as `Op`s). -/
def init (resp : Option (List Song)) : PlayerState :=
  loadSongs
    { initialState with
        audio := { initialState.audio with volume := initialState.volume } }
    resp

/-- One user- or media-triggered event after initialization, i.e. one firing
of a handler registered by `setupEventListeners` or attached to a playlist
row.  Events whose handler may call `play()` carry the promise oracle `ok`;
the two `nextSong` triggers carry the random stream and loop fuel.
`seek t` is `seekProgress` with the resulting in-range-or-not time `t`
(computed in the source from the mouse position and the media duration);
`volTo v` is `setVolumeFromClick` with the computed, possibly out-of-range,
fraction `v`; `volUp`/`volDown` are the ArrowUp/ArrowDown shortcuts;
`playMedia`/`pauseMedia` are the media-session action handlers. -/
inductive Op where
  | load (index : ℤ) (ok : Bool)
  | next (r : ℕ → ℕ) (fuel : ℕ) (ok : Bool)
  | prev (ok : Bool)
  | click (index : ℤ) (ok : Bool)
  | toggle (ok : Bool)
  | shuffleToggle
  | muteToggle
  | volTo (v : ℚ)
  | volUp
  | volDown
  | playMedia (ok : Bool)
  | pauseMedia
  | seek (t : ℚ)
  | ended (r : ℕ → ℕ) (fuel : ℕ) (ok : Bool)

/-- Dispatch one event to its handler.  `none` only when the shuffle retry
loop of `nextSong` fails to terminate within its fuel. -/
def step (s : PlayerState) : Op → Option PlayerState
  | Op.load index ok => some (loadSong s index ok)
  | Op.next r fuel ok => nextSong s r fuel ok
  | Op.prev ok => some (prevSong s ok)
  | Op.click index ok => some (clickRow s index ok)
  | Op.toggle ok => some (togglePlayPause s ok)
  | Op.shuffleToggle => some (toggleShuffle s)
  | Op.muteToggle => some (toggleMute s)
  | Op.volTo v => some (setVolume s v)
  | Op.volUp => some (setVolume s (s.volume + 1/10))
  | Op.volDown => some (setVolume s (s.volume - 1/10))
  | Op.playMedia ok => some (play s ok)
  | Op.pauseMedia => some (pause s)
  | Op.seek t => some { s with audio := { s.audio with currentTime := t } }
  | Op.ended r fuel ok => nextSong s r fuel ok

/-- Run a sequence of events from a state; `none` as soon as one diverges. -/
def runOps (s : PlayerState) : List Op → Option PlayerState
  | [] => some s
  | op :: rest =>
      match step s op with
      | none => none
      | some s1 => runOps s1 rest

/-- The index invariant of the data model: `0 ≤ currentSongIndex <
songs.length`. -/
def IndexInv (s : PlayerState) : Prop :=
  0 ≤ s.currentSongIndex ∧ s.currentSongIndex < (s.songs.length : ℤ)

instance (s : PlayerState) : Decidable (IndexInv s) := by
  unfold IndexInv; infer_instance

/-- The volume invariant of the data model: the `volume` flag lies in
`[0, 1]`. -/
def VolumeInv (s : PlayerState) : Prop :=
  0 ≤ s.volume ∧ s.volume ≤ 1

instance (s : PlayerState) : Decidable (VolumeInv s) := by
  unfold VolumeInv; infer_instance

/-- The playlist-row contents as the specification sentence literally states
them: the title shown whenever present (filename only when the title is
absent), the artist shown whenever present, and the duration formatted by
`formatTime` whenever present (`"--:--"` only when the duration is absent).
Compared against `createPlaylistItem`, which tests JS truthiness instead of
presence. -/
def claimedRow (song : Song) : PlaylistRow :=
  { titleText :=
      match song.title with
      | none => song.filename
      | some t => t,
    artistText :=
      match song.artist with
      | none => "Unknown Artist"
      | some a => a,
    durationText :=
      match song.duration with
      | none => "--:--"
      | some d => formatTime d,
    active := false }

/-- Concrete track with full metadata, for instantiating hypotheses. -/
def songA : Song :=
  { filename := "a.mp3", title := some "Alpha", artist := some "Ann",
    album := none, cover := none, duration := some 61 }

/-- Concrete track with only a filename. -/
def songB : Song :=
  { filename := "b.mp3", title := none, artist := none, album := none,
    cover := none, duration := none }

/-- Concrete track whose optional fields are present but JS-falsy: empty
title and artist strings and a zero duration. -/
def songZ : Song :=
  { filename := "z.mp3", title := some "", artist := some "", album := none,
    cover := none, duration := some 0 }

/-- A concrete two-track response. -/
def demoSongs : List Song := [songA, songB]

/-- The state right after initialization with `demoSongs`. -/
def demoInit : PlayerState := init (some demoSongs)

/-- A concrete event sequence: a playlist click, the prev button, the next
button, the ArrowUp volume shortcut, and a `loadSong` call with a negative
index. -/
def demoOps : List Op :=
  [Op.click 1 true, Op.prev true, Op.next (fun _ => 0) 5 true, Op.volUp,
    Op.load (-3) true]

/-- The state reached by running `demoOps` after initialization. -/
def demoRun : PlayerState := (runOps demoInit demoOps).getD initialState

/-- `demoInit` with shuffle switched on. -/
def stateShuffle : PlayerState := { demoInit with isShuffleOn := true }

/-- The state `nextSong` produces from `stateShuffle` with a stream that
draws index `1`. -/
def demoShuffleNext : PlayerState :=
  (nextSong stateShuffle (fun _ => 1) 5 true).getD initialState

/-- `demoInit` more than three seconds into the current track. -/
def stateDeep : PlayerState :=
  { demoInit with audio := { demoInit.audio with currentTime := 10 } }

/-- A single-track library with shuffle on. -/
def stateOneSong : PlayerState :=
  { init (some [songB]) with isShuffleOn := true }

/-- The state right after initialization with an empty track list. -/
def stateEmpty : PlayerState := init (some [])

/-! ### Component lemmas for the elementary transformers -/

@[simp] theorem showToast_songs (s : PlayerState) (m : String) :
    (showToast s m).songs = s.songs := rfl

@[simp] theorem showToast_currentSongIndex (s : PlayerState) (m : String) :
    (showToast s m).currentSongIndex = s.currentSongIndex := rfl

@[simp] theorem showToast_volume (s : PlayerState) (m : String) :
    (showToast s m).volume = s.volume := rfl

@[simp] theorem showToast_fetchLog (s : PlayerState) (m : String) :
    (showToast s m).fetchLog = s.fetchLog := rfl

@[simp] theorem showToast_rows (s : PlayerState) (m : String) :
    (showToast s m).rows = s.rows := rfl

@[simp] theorem showToast_isPlaying (s : PlayerState) (m : String) :
    (showToast s m).isPlaying = s.isPlaying := rfl

@[simp] theorem showToast_audio (s : PlayerState) (m : String) :
    (showToast s m).audio = s.audio := rfl

@[simp] theorem updatePlayPauseButton_songs (s : PlayerState) :
    (updatePlayPauseButton s).songs = s.songs := by
  unfold updatePlayPauseButton; split <;> rfl

@[simp] theorem updatePlayPauseButton_currentSongIndex (s : PlayerState) :
    (updatePlayPauseButton s).currentSongIndex = s.currentSongIndex := by
  unfold updatePlayPauseButton; split <;> rfl

@[simp] theorem updatePlayPauseButton_volume (s : PlayerState) :
    (updatePlayPauseButton s).volume = s.volume := by
  unfold updatePlayPauseButton; split <;> rfl

@[simp] theorem updatePlayPauseButton_fetchLog (s : PlayerState) :
    (updatePlayPauseButton s).fetchLog = s.fetchLog := by
  unfold updatePlayPauseButton; split <;> rfl

@[simp] theorem updatePlayPauseButton_rows (s : PlayerState) :
    (updatePlayPauseButton s).rows = s.rows := by
  unfold updatePlayPauseButton; split <;> rfl

@[simp] theorem updatePlayPauseButton_isPlaying (s : PlayerState) :
    (updatePlayPauseButton s).isPlaying = s.isPlaying := by
  unfold updatePlayPauseButton; split <;> rfl

@[simp] theorem updatePlayPauseButton_audio (s : PlayerState) :
    (updatePlayPauseButton s).audio = s.audio := by
  unfold updatePlayPauseButton; split <;> rfl

@[simp] theorem setSongSource_songs (s : PlayerState) (song : Song) :
    (setSongSource s song).songs = s.songs := rfl

@[simp] theorem setSongSource_currentSongIndex (s : PlayerState) (song : Song) :
    (setSongSource s song).currentSongIndex = s.currentSongIndex := rfl

@[simp] theorem setSongSource_volume (s : PlayerState) (song : Song) :
    (setSongSource s song).volume = s.volume := rfl

@[simp] theorem setSongSource_fetchLog (s : PlayerState) (song : Song) :
    (setSongSource s song).fetchLog = s.fetchLog := rfl

@[simp] theorem setSongSource_rows (s : PlayerState) (song : Song) :
    (setSongSource s song).rows = s.rows := rfl

@[simp] theorem setSongSource_isPlaying (s : PlayerState) (song : Song) :
    (setSongSource s song).isPlaying = s.isPlaying := rfl

@[simp] theorem setSongSource_src (s : PlayerState) (song : Song) :
    (setSongSource s song).audio.src =
      API_BASE ++ "/api/music/" ++ encodeURIComponent song.filename := rfl

@[simp] theorem updateSongInfo_songs (s : PlayerState) (song : Song) :
    (updateSongInfo s song).songs = s.songs := rfl

@[simp] theorem updateSongInfo_currentSongIndex (s : PlayerState) (song : Song) :
    (updateSongInfo s song).currentSongIndex = s.currentSongIndex := rfl

@[simp] theorem updateSongInfo_volume (s : PlayerState) (song : Song) :
    (updateSongInfo s song).volume = s.volume := rfl

@[simp] theorem updateSongInfo_fetchLog (s : PlayerState) (song : Song) :
    (updateSongInfo s song).fetchLog = s.fetchLog := rfl

@[simp] theorem updateSongInfo_rows (s : PlayerState) (song : Song) :
    (updateSongInfo s song).rows = s.rows := rfl

@[simp] theorem updateSongInfo_isPlaying (s : PlayerState) (song : Song) :
    (updateSongInfo s song).isPlaying = s.isPlaying := rfl

@[simp] theorem updateSongInfo_audio (s : PlayerState) (song : Song) :
    (updateSongInfo s song).audio = s.audio := rfl

@[simp] theorem updatePlaylistUI_songs (s : PlayerState) :
    (updatePlaylistUI s).songs = s.songs := rfl

@[simp] theorem updatePlaylistUI_currentSongIndex (s : PlayerState) :
    (updatePlaylistUI s).currentSongIndex = s.currentSongIndex := rfl

@[simp] theorem updatePlaylistUI_volume (s : PlayerState) :
    (updatePlaylistUI s).volume = s.volume := rfl

@[simp] theorem updatePlaylistUI_fetchLog (s : PlayerState) :
    (updatePlaylistUI s).fetchLog = s.fetchLog := rfl

@[simp] theorem updatePlaylistUI_isPlaying (s : PlayerState) :
    (updatePlaylistUI s).isPlaying = s.isPlaying := rfl

@[simp] theorem updatePlaylistUI_audio (s : PlayerState) :
    (updatePlaylistUI s).audio = s.audio := rfl

@[simp] theorem updatePlaylistUI_rows (s : PlayerState) :
    (updatePlaylistUI s).rows = setActive s.currentSongIndex 0 s.rows := rfl

@[simp] theorem play_songs (s : PlayerState) (ok : Bool) :
    (play s ok).songs = s.songs := by
  unfold play updatePlayPauseButton showToast; split_ifs <;> rfl

@[simp] theorem play_currentSongIndex (s : PlayerState) (ok : Bool) :
    (play s ok).currentSongIndex = s.currentSongIndex := by
  unfold play updatePlayPauseButton showToast; split_ifs <;> rfl

@[simp] theorem play_volume (s : PlayerState) (ok : Bool) :
    (play s ok).volume = s.volume := by
  unfold play updatePlayPauseButton showToast; split_ifs <;> rfl

@[simp] theorem play_fetchLog (s : PlayerState) (ok : Bool) :
    (play s ok).fetchLog = s.fetchLog := by
  unfold play updatePlayPauseButton showToast; split_ifs <;> rfl

@[simp] theorem play_rows (s : PlayerState) (ok : Bool) :
    (play s ok).rows = s.rows := by
  unfold play updatePlayPauseButton showToast; split_ifs <;> rfl

@[simp] theorem play_isPlaying (s : PlayerState) (ok : Bool) :
    (play s ok).isPlaying = ok := by
  unfold play updatePlayPauseButton showToast; split_ifs <;> simp_all

@[simp] theorem play_src (s : PlayerState) (ok : Bool) :
    (play s ok).audio.src = s.audio.src := by
  unfold play updatePlayPauseButton showToast; split_ifs <;> rfl

@[simp] theorem pause_songs (s : PlayerState) :
    (pause s).songs = s.songs := by
  unfold pause updatePlayPauseButton; split_ifs <;> rfl

@[simp] theorem pause_currentSongIndex (s : PlayerState) :
    (pause s).currentSongIndex = s.currentSongIndex := by
  unfold pause updatePlayPauseButton; split_ifs <;> rfl

@[simp] theorem pause_volume (s : PlayerState) :
    (pause s).volume = s.volume := by
  unfold pause updatePlayPauseButton; split_ifs <;> rfl

@[simp] theorem pause_fetchLog (s : PlayerState) :
    (pause s).fetchLog = s.fetchLog := by
  unfold pause updatePlayPauseButton; split_ifs <;> rfl

@[simp] theorem pause_rows (s : PlayerState) :
    (pause s).rows = s.rows := by
  unfold pause updatePlayPauseButton; split_ifs <;> rfl

@[simp] theorem toggleShuffle_songs (s : PlayerState) :
    (toggleShuffle s).songs = s.songs := rfl

@[simp] theorem toggleShuffle_currentSongIndex (s : PlayerState) :
    (toggleShuffle s).currentSongIndex = s.currentSongIndex := rfl

@[simp] theorem toggleShuffle_volume (s : PlayerState) :
    (toggleShuffle s).volume = s.volume := rfl

@[simp] theorem toggleShuffle_fetchLog (s : PlayerState) :
    (toggleShuffle s).fetchLog = s.fetchLog := rfl

@[simp] theorem toggleMute_songs (s : PlayerState) :
    (toggleMute s).songs = s.songs := rfl

@[simp] theorem toggleMute_currentSongIndex (s : PlayerState) :
    (toggleMute s).currentSongIndex = s.currentSongIndex := rfl

@[simp] theorem toggleMute_volume (s : PlayerState) :
    (toggleMute s).volume = s.volume := rfl

@[simp] theorem toggleMute_fetchLog (s : PlayerState) :
    (toggleMute s).fetchLog = s.fetchLog := rfl

@[simp] theorem setVolume_songs (s : PlayerState) (v : ℚ) :
    (setVolume s v).songs = s.songs := by
  unfold setVolume; dsimp only; split_ifs <;> rfl

@[simp] theorem setVolume_currentSongIndex (s : PlayerState) (v : ℚ) :
    (setVolume s v).currentSongIndex = s.currentSongIndex := by
  unfold setVolume; dsimp only; split_ifs <;> rfl

@[simp] theorem setVolume_fetchLog (s : PlayerState) (v : ℚ) :
    (setVolume s v).fetchLog = s.fetchLog := by
  unfold setVolume; dsimp only; split_ifs <;> rfl

@[simp] theorem setVolume_volume (s : PlayerState) (v : ℚ) :
    (setVolume s v).volume = max 0 (min 1 v) := by
  unfold setVolume; dsimp only; split_ifs <;> rfl

/-! ### Lemmas about `setActive` (the `updatePlaylistUI` traversal) -/

theorem setActive_length (cur : ℤ) (k : ℕ) (rows : List PlaylistRow) :
    (setActive cur k rows).length = rows.length := by
  induction rows generalizing k with
  | nil => rfl
  | cons row rest ih => simp [setActive, ih]

theorem setActive_get? (cur : ℤ) (k : ℕ) (rows : List PlaylistRow) (j : ℕ) :
    (setActive cur k rows).get? j =
      (rows.get? j).map
        (fun row => { row with active := decide (((k + j : ℕ) : ℤ) = cur) }) := by
  induction rows generalizing k j with
  | nil => simp [setActive]
  | cons row rest ih =>
      cases j with
      | zero => simp [setActive]
      | succ j =>
          simp only [setActive, List.get?_cons_succ, ih (k + 1) j]
          have : (k + 1) + j = k + (j + 1) := by omega
          rw [this]

theorem setActive_countP (cur : ℤ) (k : ℕ) (rows : List PlaylistRow) :
    (setActive cur k rows).countP (fun row => row.active) =
      if (k : ℤ) ≤ cur ∧ cur < (k : ℤ) + rows.length then 1 else 0 := by
  induction rows generalizing k with
  | nil =>
      rw [setActive]
      simp only [List.countP_nil, List.length_nil, Nat.cast_zero, add_zero]
      rw [if_neg (by omega)]
  | cons row rest ih =>
      rw [setActive, List.countP_cons, ih (k + 1)]
      dsimp only
      simp only [List.length_cons, decide_eq_true_eq]
      push_cast
      split_ifs <;> omega

/-! ### Characterization of `loadSong` -/

theorem loadSong_of_invalid (s : PlayerState) (index : ℤ) (ok : Bool)
    (h : index < 0 ∨ (s.songs.length : ℤ) ≤ index) :
    loadSong s index ok = s := by
  unfold loadSong; rw [if_pos h]

@[simp] theorem loadSong_songs (s : PlayerState) (index : ℤ) (ok : Bool) :
    (loadSong s index ok).songs = s.songs := by
  unfold loadSong
  split
  · rfl
  split
  · rfl
  dsimp only
  split_ifs <;> simp

@[simp] theorem loadSong_volume (s : PlayerState) (index : ℤ) (ok : Bool) :
    (loadSong s index ok).volume = s.volume := by
  unfold loadSong
  split
  · rfl
  split
  · rfl
  dsimp only
  split_ifs <;> simp

@[simp] theorem loadSong_fetchLog (s : PlayerState) (index : ℤ) (ok : Bool) :
    (loadSong s index ok).fetchLog = s.fetchLog := by
  unfold loadSong
  split
  · rfl
  split
  · rfl
  dsimp only
  split_ifs <;> simp

theorem loadSong_currentSongIndex_of_valid (s : PlayerState) (index : ℤ) (ok : Bool)
    (hlo : 0 ≤ index) (hhi : index < (s.songs.length : ℤ)) :
    (loadSong s index ok).currentSongIndex = index := by
  unfold loadSong
  rw [if_neg (by omega)]
  split
  · rfl
  dsimp only
  split_ifs <;> simp

theorem loadSong_rows_of_valid (s : PlayerState) (index : ℤ) (ok : Bool)
    (hlo : 0 ≤ index) (hhi : index < (s.songs.length : ℤ)) :
    (loadSong s index ok).rows = setActive index 0 s.rows := by
  have hlt : index.toNat < s.songs.length := by omega
  unfold loadSong
  rw [if_neg (by omega)]
  rcases hg : s.songs.get? index.toNat with _ | song
  · exact absurd (List.get?_eq_none.mp hg) (by omega)
  dsimp only
  split_ifs <;> simp

theorem loadSong_src_of_valid (s : PlayerState) (index : ℤ) (ok : Bool) (song : Song)
    (hlo : 0 ≤ index) (hhi : index < (s.songs.length : ℤ))
    (hg : s.songs.get? index.toNat = some song) :
    (loadSong s index ok).audio.src =
      API_BASE ++ "/api/music/" ++ encodeURIComponent song.filename := by
  unfold loadSong
  rw [if_neg (by omega), hg]
  dsimp only
  split_ifs with hp
  · simp [play, updatePlayPauseButton, showToast, setSongSource]
    split_ifs <;> rfl
  · simp

theorem loadSong_isPlaying_of_not (s : PlayerState) (index : ℤ) (ok : Bool)
    (h : s.isPlaying = false) :
    (loadSong s index ok).isPlaying = false := by
  unfold loadSong
  split
  · exact h
  split
  · exact h
  dsimp only
  rw [if_neg (by simp [h])]
  simp [h]

/-! ### Shape lemmas for the composite handlers -/

theorem loadSong_IndexInv (s : PlayerState) (index : ℤ) (ok : Bool)
    (h : IndexInv s) : IndexInv (loadSong s index ok) := by
  by_cases hv : index < 0 ∨ (s.songs.length : ℤ) ≤ index
  · rw [loadSong_of_invalid s index ok hv]; exact h
  · push_neg at hv
    constructor
    · rw [loadSong_currentSongIndex_of_valid s index ok hv.1 (by omega)]; exact hv.1
    · rw [loadSong_currentSongIndex_of_valid s index ok hv.1 (by omega), loadSong_songs]
      omega

theorem rollShuffle_some (r : ℕ → ℕ) (n : ℕ) (cur : ℤ) (k fuel j : ℕ)
    (hn : 0 < n) (h : rollShuffle r n cur k fuel = some j) :
    j < n ∧ (j : ℤ) ≠ cur := by
  induction fuel generalizing k with
  | zero => simp [rollShuffle] at h
  | succ fuel ih =>
      rw [rollShuffle] at h
      split_ifs at h with hj
      · exact ih (k + 1) h
      · rw [Option.some_inj] at h
        subst h
        exact ⟨Nat.mod_lt _ hn, hj⟩

theorem nextSong_form (s : PlayerState) (r : ℕ → ℕ) (fuel : ℕ) (ok : Bool)
    (s' : PlayerState) (h : nextSong s r fuel ok = some s') :
    s' = s ∨ ∃ j : ℤ, s' = loadSong s j ok := by
  unfold nextSong at h
  split_ifs at h
  · left; exact (Option.some_inj.mp h).symm
  · rcases hr : rollShuffle r s.songs.length s.currentSongIndex 0 fuel with _ | j
    · rw [hr] at h; simp at h
    · rw [hr] at h
      right; exact ⟨(j : ℤ), (Option.some_inj.mp h).symm⟩
  · left; exact (Option.some_inj.mp h).symm
  · right; exact ⟨_, (Option.some_inj.mp h).symm⟩

theorem prevSong_form (s : PlayerState) (ok : Bool) :
    prevSong s ok = s ∨
      prevSong s ok = { s with audio := { s.audio with currentTime := 0 } } ∨
      ∃ j : ℤ, prevSong s ok = loadSong s j ok := by
  unfold prevSong
  split_ifs
  · left; rfl
  · right; left; rfl
  · right; right; exact ⟨_, rfl⟩

theorem clickRow_form (s : PlayerState) (index : ℤ) (ok : Bool) :
    clickRow s index ok = loadSong s index ok ∨
      clickRow s index ok = play (loadSong s index ok) ok := by
  unfold clickRow
  split_ifs
  · left; rfl
  · right; rfl

theorem togglePlayPause_form (s : PlayerState) (ok : Bool) :
    togglePlayPause s ok = showToast s "No songs available" ∨
      togglePlayPause s ok = pause s ∨ togglePlayPause s ok = play s ok := by
  unfold togglePlayPause
  split_ifs
  · left; rfl
  · right; left; rfl
  · right; right; rfl

/-! ### Per-event preservation of the two data-model invariants and of the
fetch log -/

theorem step_IndexInv (s s' : PlayerState) (op : Op)
    (hinv : IndexInv s) (h : step s op = some s') : IndexInv s' := by
  have hload : ∀ (j : ℤ) (ok : Bool), IndexInv (loadSong s j ok) :=
    fun j ok => loadSong_IndexInv s j ok hinv
  have hplayload : ∀ (j : ℤ) (ok ok2 : Bool), IndexInv (play (loadSong s j ok) ok2) := by
    intro j ok ok2
    have := hload j ok
    unfold IndexInv at this ⊢
    rwa [play_currentSongIndex, play_songs]
  cases op with
  | load index ok =>
      rw [Option.some_inj.mp h.symm] at *
      exact hload index ok
  | next r fuel ok =>
      rcases nextSong_form s r fuel ok s' h with rfl | ⟨j, rfl⟩
      · exact hinv
      · exact hload j ok
  | prev ok =>
      have h' := Option.some_inj.mp h
      rcases prevSong_form s ok with he | he | ⟨j, he⟩ <;> rw [he] at h' <;> subst h'
      · exact hinv
      · exact hinv
      · exact hload j ok
  | click index ok =>
      have h' := Option.some_inj.mp h
      rcases clickRow_form s index ok with he | he <;> rw [he] at h' <;> subst h'
      · exact hload index ok
      · exact hplayload index ok ok
  | toggle ok =>
      have h' := Option.some_inj.mp h
      rcases togglePlayPause_form s ok with he | he | he <;> rw [he] at h' <;> subst h'
      · exact hinv
      · unfold IndexInv at hinv ⊢; rwa [pause_currentSongIndex, pause_songs]
      · unfold IndexInv at hinv ⊢; rwa [play_currentSongIndex, play_songs]
  | shuffleToggle =>
      have h' := Option.some_inj.mp h; subst h'; exact hinv
  | muteToggle =>
      have h' := Option.some_inj.mp h; subst h'; exact hinv
  | volTo v =>
      have h' := Option.some_inj.mp h; subst h'
      unfold IndexInv at hinv ⊢; rwa [setVolume_currentSongIndex, setVolume_songs]
  | volUp =>
      have h' := Option.some_inj.mp h; subst h'
      unfold IndexInv at hinv ⊢; rwa [setVolume_currentSongIndex, setVolume_songs]
  | volDown =>
      have h' := Option.some_inj.mp h; subst h'
      unfold IndexInv at hinv ⊢; rwa [setVolume_currentSongIndex, setVolume_songs]
  | playMedia ok =>
      have h' := Option.some_inj.mp h; subst h'
      unfold IndexInv at hinv ⊢; rwa [play_currentSongIndex, play_songs]
  | pauseMedia =>
      have h' := Option.some_inj.mp h; subst h'
      unfold IndexInv at hinv ⊢; rwa [pause_currentSongIndex, pause_songs]
  | seek t =>
      have h' := Option.some_inj.mp h; subst h'; exact hinv
  | ended r fuel ok =>
      rcases nextSong_form s r fuel ok s' h with rfl | ⟨j, rfl⟩
      · exact hinv
      · exact hload j ok

@[simp] theorem renderPlaylist_songs (s : PlayerState) :
    (renderPlaylist s).songs = s.songs := rfl

@[simp] theorem renderPlaylist_currentSongIndex (s : PlayerState) :
    (renderPlaylist s).currentSongIndex = s.currentSongIndex := rfl

@[simp] theorem renderPlaylist_volume (s : PlayerState) :
    (renderPlaylist s).volume = s.volume := rfl

@[simp] theorem renderPlaylist_fetchLog (s : PlayerState) :
    (renderPlaylist s).fetchLog = s.fetchLog := rfl

@[simp] theorem renderPlaylist_rows (s : PlayerState) :
    (renderPlaylist s).rows = s.songs.map createPlaylistItem := rfl

@[simp] theorem displayEmptyPlaylist_songs (s : PlayerState) :
    (displayEmptyPlaylist s).songs = s.songs := rfl

@[simp] theorem displayEmptyPlaylist_currentSongIndex (s : PlayerState) :
    (displayEmptyPlaylist s).currentSongIndex = s.currentSongIndex := rfl

@[simp] theorem displayEmptyPlaylist_volume (s : PlayerState) :
    (displayEmptyPlaylist s).volume = s.volume := rfl

@[simp] theorem displayEmptyPlaylist_fetchLog (s : PlayerState) :
    (displayEmptyPlaylist s).fetchLog = s.fetchLog := rfl

theorem setVolume_VolumeInv (s : PlayerState) (v : ℚ) :
    VolumeInv (setVolume s v) := by
  rw [VolumeInv, setVolume_volume]
  exact ⟨le_max_left 0 _, max_le zero_le_one (min_le_left 1 v)⟩

theorem step_VolumeInv (s s' : PlayerState) (op : Op)
    (hinv : VolumeInv s) (h : step s op = some s') : VolumeInv s' := by
  have hload : ∀ (j : ℤ) (ok : Bool), VolumeInv (loadSong s j ok) := by
    intro j ok; unfold VolumeInv at hinv ⊢; rwa [loadSong_volume]
  cases op with
  | load index ok => rw [← Option.some_inj.mp h]; exact hload index ok
  | next r fuel ok =>
      rcases nextSong_form s r fuel ok s' h with rfl | ⟨j, rfl⟩
      · exact hinv
      · exact hload j ok
  | prev ok =>
      have h' := Option.some_inj.mp h
      rcases prevSong_form s ok with he | he | ⟨j, he⟩ <;> rw [he] at h' <;> subst h'
      · exact hinv
      · exact hinv
      · exact hload j ok
  | click index ok =>
      have h' := Option.some_inj.mp h
      rcases clickRow_form s index ok with he | he <;> rw [he] at h' <;> subst h'
      · exact hload index ok
      · have := hload index ok
        unfold VolumeInv at this ⊢; rwa [play_volume]
  | toggle ok =>
      have h' := Option.some_inj.mp h
      rcases togglePlayPause_form s ok with he | he | he <;> rw [he] at h' <;> subst h'
      · exact hinv
      · unfold VolumeInv at hinv ⊢; rwa [pause_volume]
      · unfold VolumeInv at hinv ⊢; rwa [play_volume]
  | shuffleToggle =>
      have h' := Option.some_inj.mp h; subst h'
      unfold VolumeInv at hinv ⊢; rwa [toggleShuffle_volume]
  | muteToggle =>
      have h' := Option.some_inj.mp h; subst h'
      unfold VolumeInv at hinv ⊢; rwa [toggleMute_volume]
  | volTo v =>
      have h' := Option.some_inj.mp h; subst h'; exact setVolume_VolumeInv s v
  | volUp =>
      have h' := Option.some_inj.mp h; subst h'; exact setVolume_VolumeInv s _
  | volDown =>
      have h' := Option.some_inj.mp h; subst h'; exact setVolume_VolumeInv s _
  | playMedia ok =>
      have h' := Option.some_inj.mp h; subst h'
      unfold VolumeInv at hinv ⊢; rwa [play_volume]
  | pauseMedia =>
      have h' := Option.some_inj.mp h; subst h'
      unfold VolumeInv at hinv ⊢; rwa [pause_volume]
  | seek t =>
      have h' := Option.some_inj.mp h; subst h'; exact hinv
  | ended r fuel ok =>
      rcases nextSong_form s r fuel ok s' h with rfl | ⟨j, rfl⟩
      · exact hinv
      · exact hload j ok

theorem step_fetchLog (s s' : PlayerState) (op : Op)
    (h : step s op = some s') : s'.fetchLog = s.fetchLog := by
  have hload : ∀ (j : ℤ) (ok : Bool), (loadSong s j ok).fetchLog = s.fetchLog :=
    fun j ok => loadSong_fetchLog s j ok
  cases op with
  | load index ok => rw [← Option.some_inj.mp h]; exact hload index ok
  | next r fuel ok =>
      rcases nextSong_form s r fuel ok s' h with rfl | ⟨j, rfl⟩
      · rfl
      · exact hload j ok
  | prev ok =>
      have h' := Option.some_inj.mp h
      rcases prevSong_form s ok with he | he | ⟨j, he⟩ <;> rw [he] at h' <;> subst h'
      · rfl
      · rfl
      · exact hload j ok
  | click index ok =>
      have h' := Option.some_inj.mp h
      rcases clickRow_form s index ok with he | he <;> rw [he] at h' <;> subst h'
      · exact hload index ok
      · rw [play_fetchLog]; exact hload index ok
  | toggle ok =>
      have h' := Option.some_inj.mp h
      rcases togglePlayPause_form s ok with he | he | he <;> rw [he] at h' <;> subst h'
      · rfl
      · exact pause_fetchLog s
      · exact play_fetchLog s ok
  | shuffleToggle =>
      have h' := Option.some_inj.mp h; subst h'; exact toggleShuffle_fetchLog s
  | muteToggle =>
      have h' := Option.some_inj.mp h; subst h'; exact toggleMute_fetchLog s
  | volTo v =>
      have h' := Option.some_inj.mp h; subst h'; exact setVolume_fetchLog s v
  | volUp =>
      have h' := Option.some_inj.mp h; subst h'; exact setVolume_fetchLog s _
  | volDown =>
      have h' := Option.some_inj.mp h; subst h'; exact setVolume_fetchLog s _
  | playMedia ok =>
      have h' := Option.some_inj.mp h; subst h'; exact play_fetchLog s ok
  | pauseMedia =>
      have h' := Option.some_inj.mp h; subst h'; exact pause_fetchLog s
  | seek t =>
      have h' := Option.some_inj.mp h; subst h'; rfl
  | ended r fuel ok =>
      rcases nextSong_form s r fuel ok s' h with rfl | ⟨j, rfl⟩
      · rfl
      · exact hload j ok

/-! ### Whole-run preservation -/

theorem runOps_IndexInv (ops : List Op) (s s' : PlayerState)
    (hinv : IndexInv s) (h : runOps s ops = some s') : IndexInv s' := by
  induction ops generalizing s with
  | nil => rw [runOps, Option.some_inj] at h; subst h; exact hinv
  | cons op rest ih =>
      rw [runOps] at h
      rcases hs : step s op with _ | s1
      · rw [hs] at h; simp at h
      · rw [hs] at h
        exact ih s1 (step_IndexInv s s1 op hinv hs) h

theorem runOps_VolumeInv (ops : List Op) (s s' : PlayerState)
    (hinv : VolumeInv s) (h : runOps s ops = some s') : VolumeInv s' := by
  induction ops generalizing s with
  | nil => rw [runOps, Option.some_inj] at h; subst h; exact hinv
  | cons op rest ih =>
      rw [runOps] at h
      rcases hs : step s op with _ | s1
      · rw [hs] at h; simp at h
      · rw [hs] at h
        exact ih s1 (step_VolumeInv s s1 op hinv hs) h

theorem runOps_fetchLog (ops : List Op) (s s' : PlayerState)
    (h : runOps s ops = some s') : s'.fetchLog = s.fetchLog := by
  induction ops generalizing s with
  | nil => rw [runOps, Option.some_inj] at h; subst h; rfl
  | cons op rest ih =>
      rw [runOps] at h
      rcases hs : step s op with _ | s1
      · rw [hs] at h; simp at h
      · rw [hs] at h
        rw [ih s1 h, step_fetchLog s s1 op hs]

/-! ### What `init` produces -/

theorem init_currentSongIndex (resp : Option (List Song)) :
    (init resp).currentSongIndex = 0 := by
  unfold init loadSongs
  rcases resp with _ | list
  · simp; rfl
  · dsimp only
    split_ifs <;> simp <;> rfl

theorem init_songs_of_some (list : List Song) :
    (init (some list)).songs = list := by
  unfold init loadSongs
  dsimp only
  split_ifs <;> simp [initialState, displayEmptyPlaylist, renderPlaylist, showToast]

theorem init_volume (resp : Option (List Song)) :
    (init resp).volume = 0.8 := by
  unfold init loadSongs
  rcases resp with _ | list
  · simp; rfl
  · dsimp only
    split_ifs <;> simp <;> rfl

theorem init_fetchLog (resp : Option (List Song)) :
    (init resp).fetchLog = [API_BASE ++ "/api/songs"] := by
  unfold init loadSongs
  rcases resp with _ | list
  · simp; rfl
  · dsimp only
    split_ifs <;> simp <;> rfl

/-! ### Claim theorems -/

/-- C1: for every sequence of events performed after a track list with at
least one song has been loaded, `0 ≤ currentSongIndex < songs.length` holds
after each event; and `loadSong` called with a negative or too-large index
returns without changing `currentSongIndex` or the audio source. -/
theorem claim1_index_invariant :
    (∀ (list : List Song) (ops : List Op) (s' : PlayerState),
        list ≠ [] → runOps (init (some list)) ops = some s' → IndexInv s') ∧
    (∀ (s : PlayerState) (index : ℤ) (ok : Bool),
        index < 0 ∨ (s.songs.length : ℤ) ≤ index →
          (loadSong s index ok).currentSongIndex = s.currentSongIndex ∧
            (loadSong s index ok).audio.src = s.audio.src) := by
  constructor
  · intro list ops s' hne h
    apply runOps_IndexInv ops _ s' _ h
    have hlen : list.length ≠ 0 := by simpa [List.length_eq_zero] using hne
    constructor
    · rw [init_currentSongIndex]
    · rw [init_currentSongIndex, init_songs_of_some]
      omega
  · intro s index ok h
    rw [loadSong_of_invalid s index ok h]
    exact ⟨rfl, rfl⟩

/-- Witness for C1 at the concrete run `demoRun` and at a too-large index
on the concrete state `demoInit`. -/
theorem claim1_witness :
    IndexInv demoRun ∧
      ((loadSong demoInit 5 true).currentSongIndex = demoInit.currentSongIndex ∧
        (loadSong demoInit 5 true).audio.src = demoInit.audio.src) := by
  constructor
  · exact claim1_index_invariant.1 demoSongs demoOps demoRun
      (by with_unfolding_all decide) (by with_unfolding_all decide)
  · exact claim1_index_invariant.2 demoInit 5 true
      (by with_unfolding_all decide)

/-- C2: `setVolume` stores exactly `max 0 (min 1 v)`, which lies in
`[0, 1]`; and across initialization plus any event sequence — the ArrowUp
and ArrowDown shortcuts included — the stored volume flag stays in
`[0, 1]`. -/
theorem claim2_volume_clamped :
    (∀ (s : PlayerState) (v : ℚ),
        (setVolume s v).volume = max 0 (min 1 v) ∧
          0 ≤ (setVolume s v).volume ∧ (setVolume s v).volume ≤ 1) ∧
    (∀ (resp : Option (List Song)) (ops : List Op) (s' : PlayerState),
        runOps (init resp) ops = some s' → 0 ≤ s'.volume ∧ s'.volume ≤ 1) := by
  constructor
  · intro s v
    exact ⟨setVolume_volume s v, (setVolume_VolumeInv s v).1,
      (setVolume_VolumeInv s v).2⟩
  · intro resp ops s' h
    have hinit : VolumeInv (init resp) := by
      unfold VolumeInv
      rw [init_volume]
      norm_num
    exact runOps_VolumeInv ops _ s' hinit h

/-- Witness for C2 at the out-of-range argument `11/10` and at the concrete
run `demoRun` (which contains an ArrowUp event). -/
theorem claim2_witness :
    ((setVolume initialState (11/10)).volume = max 0 (min 1 (11/10)) ∧
        0 ≤ (setVolume initialState (11/10)).volume ∧
        (setVolume initialState (11/10)).volume ≤ 1) ∧
      (0 ≤ demoRun.volume ∧ demoRun.volume ≤ 1) := by
  constructor
  · exact claim2_volume_clamped.1 initialState (11/10)
  · exact claim2_volume_clamped.2 (some demoSongs) demoOps demoRun
      (by with_unfolding_all decide)

/-- C3: the track list is requested exactly once, from the `/api/songs`
endpoint, during initialization; after initialization plus any sequence of
events the request log is still that single request. -/
theorem claim3_fetch_once :
    ∀ (resp : Option (List Song)) (ops : List Op) (s' : PlayerState),
      runOps (init resp) ops = some s' →
        s'.fetchLog = [API_BASE ++ "/api/songs"] := by
  intro resp ops s' h
  rw [runOps_fetchLog ops _ s' h, init_fetchLog]

/-- Witness for C3 at the concrete run `demoRun`. -/
theorem claim3_witness : demoRun.fetchLog = [API_BASE ++ "/api/songs"] :=
  claim3_fetch_once (some demoSongs) demoOps demoRun
    (by with_unfolding_all decide)

/-- C10: when the `play()` promise rejects, the failure is mirrored into UI
state: `isPlaying` is `false` (never left `true`), the play icon — not the
pause icon — is shown, and the toast text is `'Failed to play audio'`. -/
theorem claim10_play_failure (s : PlayerState) :
    (play s false).isPlaying = false ∧
      (play s false).toast = "Failed to play audio" ∧
      (play s false).playIconVisible = true ∧
      (play s false).pauseIconVisible = false := by
  unfold play updatePlayPauseButton showToast
  norm_num

/-- C4: clicking the playlist row for a valid index `i` (with the play
promise resolving) makes `i` the current index, points the audio source at
track `i`'s file URL, and, when playback was not already in progress,
starts playback. -/
theorem claim4_click_row (s : PlayerState) (i : ℕ) (song : Song)
    (hi : i < s.songs.length) (hg : s.songs.get? i = some song) :
    (clickRow s (i : ℤ) true).currentSongIndex = (i : ℤ) ∧
      (clickRow s (i : ℤ) true).audio.src =
        API_BASE ++ "/api/music/" ++ encodeURIComponent song.filename ∧
      (s.isPlaying = false → (clickRow s (i : ℤ) true).isPlaying = true) := by
  have hlo : (0 : ℤ) ≤ (i : ℤ) := Int.natCast_nonneg i
  have hhi : (i : ℤ) < (s.songs.length : ℤ) := by exact_mod_cast hi
  have hg' : s.songs.get? ((i : ℤ)).toNat = some song := by
    rwa [Int.toNat_ofNat]
  unfold clickRow
  split_ifs with hp
  · refine ⟨loadSong_currentSongIndex_of_valid s (i : ℤ) true hlo hhi,
      loadSong_src_of_valid s (i : ℤ) true song hlo hhi hg', ?_⟩
    intro hfalse
    rw [hfalse] at hp
    exact absurd hp (by simp)
  · refine ⟨?_, ?_, ?_⟩
    · rw [play_currentSongIndex]
      exact loadSong_currentSongIndex_of_valid s (i : ℤ) true hlo hhi
    · rw [play_src]
      exact loadSong_src_of_valid s (i : ℤ) true song hlo hhi hg'
    · intro _
      rw [play_isPlaying]

/-- Witness for C4: clicking row 1 of the freshly initialized two-track
player. -/
theorem claim4_witness :
    (clickRow demoInit 1 true).currentSongIndex = (1 : ℤ) ∧
      (clickRow demoInit 1 true).audio.src =
        API_BASE ++ "/api/music/" ++ encodeURIComponent songB.filename ∧
      (demoInit.isPlaying = false → (clickRow demoInit 1 true).isPlaying = true) := by
  have h := claim4_click_row demoInit 1 songB (by with_unfolding_all decide)
    (by with_unfolding_all decide)
  exact_mod_cast h

/-- C5: with shuffle off and a non-empty list, `nextSong` moves the current
index to `(currentSongIndex + 1) % songs.length`, wrapping from the last
track to index `0`; with an empty list it changes nothing.  (The index of a
reachable state is non-negative, which the modular step needs.) -/
theorem claim5_next_sequential (s : PlayerState) (r : ℕ → ℕ) (fuel : ℕ)
    (ok : Bool) (hsh : s.isShuffleOn = false) :
    (s.songs ≠ [] → 0 ≤ s.currentSongIndex →
      ∃ s', nextSong s r fuel ok = some s' ∧
        s'.currentSongIndex = (s.currentSongIndex + 1) % (s.songs.length : ℤ) ∧
        (s.currentSongIndex = (s.songs.length : ℤ) - 1 →
          s'.currentSongIndex = 0)) ∧
    (s.songs = [] → nextSong s r fuel ok = some s) := by
  constructor
  · intro hne h0
    have hn : s.songs.length ≠ 0 := by simpa [List.length_eq_zero] using hne
    have hnz : (0 : ℤ) < (s.songs.length : ℤ) := by omega
    have htm : (s.currentSongIndex + 1).tmod (s.songs.length : ℤ) =
        (s.currentSongIndex + 1) % (s.songs.length : ℤ) :=
      Int.tmod_eq_emod (by omega) (by omega)
    refine ⟨loadSong s ((s.currentSongIndex + 1).tmod (s.songs.length : ℤ)) ok,
      ?_, ?_, ?_⟩
    · unfold nextSong
      rw [if_neg hn, if_neg (by simp [hsh])]
    · rw [htm]
      exact loadSong_currentSongIndex_of_valid s _ ok
        (Int.emod_nonneg _ (by omega)) (Int.emod_lt_of_pos _ hnz)
    · intro hlast
      rw [htm, loadSong_currentSongIndex_of_valid s _ ok
        (Int.emod_nonneg _ (by omega)) (Int.emod_lt_of_pos _ hnz), hlast]
      rw [sub_add_cancel, Int.emod_self]
  · intro hemp
    unfold nextSong
    rw [if_pos (by simp [hemp])]

/-- Witness for C5: `nextSong` on the freshly initialized two-track player
(current index 0) and on an empty library. -/
theorem claim5_witness :
    (∃ s', nextSong demoInit (fun _ => 0) 5 true = some s' ∧
        s'.currentSongIndex =
          (demoInit.currentSongIndex + 1) % (demoInit.songs.length : ℤ) ∧
        (demoInit.currentSongIndex = (demoInit.songs.length : ℤ) - 1 →
          s'.currentSongIndex = 0)) ∧
      nextSong stateEmpty (fun _ => 0) 5 true = some stateEmpty := by
  constructor
  · exact (claim5_next_sequential demoInit (fun _ => 0) 5 true
      (by with_unfolding_all decide)).1 (by with_unfolding_all decide)
      (by with_unfolding_all decide)
  · exact (claim5_next_sequential stateEmpty (fun _ => 0) 5 true
      (by with_unfolding_all decide)).2 (by with_unfolding_all decide)

/-- C6: with shuffle on and more than one song, whenever the retry loop of
`nextSong` terminates the loaded index is in bounds and differs from the
current one; with shuffle on and exactly one song, `nextSong` leaves the
state — current index and audio source included — unchanged. -/
theorem claim6_next_shuffle (s : PlayerState) (r : ℕ → ℕ) (fuel : ℕ)
    (ok : Bool) (s' : PlayerState) (hsh : s.isShuffleOn = true) :
    (1 < s.songs.length → nextSong s r fuel ok = some s' →
      0 ≤ s'.currentSongIndex ∧ s'.currentSongIndex < (s.songs.length : ℤ) ∧
        s'.currentSongIndex ≠ s.currentSongIndex) ∧
    (s.songs.length = 1 → nextSong s r fuel ok = some s) := by
  constructor
  · intro hlen h
    unfold nextSong at h
    rw [if_neg (by omega), if_pos hsh, if_pos hlen] at h
    rcases hr : rollShuffle r s.songs.length s.currentSongIndex 0 fuel with _ | j
    · rw [hr] at h
      exact absurd h (by simp)
    · rw [hr] at h
      obtain ⟨hjlt, hjne⟩ :=
        rollShuffle_some r s.songs.length s.currentSongIndex 0 fuel j
          (by omega) hr
      have h' := Option.some_inj.mp h
      have hidx := loadSong_currentSongIndex_of_valid s (j : ℤ) ok
        (Int.natCast_nonneg j) (by exact_mod_cast hjlt)
      rw [← h', hidx]
      exact ⟨Int.natCast_nonneg j, by exact_mod_cast hjlt, hjne⟩
  · intro hlen
    unfold nextSong
    rw [if_neg (by omega), if_pos hsh, if_neg (by omega)]

/-- Witness for C6: a terminating shuffle draw on the two-track player and
the single-track no-op. -/
theorem claim6_witness :
    (0 ≤ demoShuffleNext.currentSongIndex ∧
        demoShuffleNext.currentSongIndex < (stateShuffle.songs.length : ℤ) ∧
        demoShuffleNext.currentSongIndex ≠ stateShuffle.currentSongIndex) ∧
      nextSong stateOneSong (fun _ => 1) 5 true = some stateOneSong := by
  constructor
  · exact (claim6_next_shuffle stateShuffle (fun _ => 1) 5 true demoShuffleNext
      (by with_unfolding_all decide)).1 (by with_unfolding_all decide)
      (by with_unfolding_all decide)
  · exact (claim6_next_shuffle stateOneSong (fun _ => 1) 5 true initialState
      (by with_unfolding_all decide)).2 (by with_unfolding_all decide)

/-- C7: on a non-empty list, `prevSong` restarts the current track (position
`0`, index unchanged) when more than 3 seconds in, and otherwise loads
`(currentSongIndex - 1 + n) % n`, wrapping from the first track to the
last; on an empty list it changes nothing. -/
theorem claim7_prev (s : PlayerState) (ok : Bool) :
    (s.songs ≠ [] → 3 < s.audio.currentTime →
      (prevSong s ok).audio.currentTime = 0 ∧
        (prevSong s ok).currentSongIndex = s.currentSongIndex) ∧
    (s.songs ≠ [] → 0 ≤ s.currentSongIndex → ¬3 < s.audio.currentTime →
      (prevSong s ok).currentSongIndex =
          (s.currentSongIndex - 1 + s.songs.length) % (s.songs.length : ℤ) ∧
        (s.currentSongIndex = 0 →
          (prevSong s ok).currentSongIndex = (s.songs.length : ℤ) - 1)) ∧
    (s.songs = [] → prevSong s ok = s) := by
  refine ⟨?_, ?_, ?_⟩
  · intro hne h3
    have hn : s.songs.length ≠ 0 := by simpa [List.length_eq_zero] using hne
    unfold prevSong
    rw [if_neg hn, if_pos h3]
    exact ⟨rfl, rfl⟩
  · intro hne h0 hnot
    have hn : s.songs.length ≠ 0 := by simpa [List.length_eq_zero] using hne
    have hnz : (0 : ℤ) < (s.songs.length : ℤ) := by omega
    have htm : (s.currentSongIndex - 1 + (s.songs.length : ℤ)).tmod
        (s.songs.length : ℤ) =
        (s.currentSongIndex - 1 + (s.songs.length : ℤ)) % (s.songs.length : ℤ) :=
      Int.tmod_eq_emod (by omega) (by omega)
    unfold prevSong
    rw [if_neg hn, if_neg hnot]
    constructor
    · rw [htm]
      exact loadSong_currentSongIndex_of_valid s _ ok
        (Int.emod_nonneg _ (by omega)) (Int.emod_lt_of_pos _ hnz)
    · intro h0eq
      rw [htm, loadSong_currentSongIndex_of_valid s _ ok
        (Int.emod_nonneg _ (by omega)) (Int.emod_lt_of_pos _ hnz), h0eq]
      rw [zero_sub, Int.emod_eq_of_lt (by omega) (by omega)]
      omega
  · intro hemp
    unfold prevSong
    rw [if_pos (by simp [hemp])]

/-- Witness for C7: deep into a track (restart), at the start of track 0
(wrap to the last track), and on an empty library. -/
theorem claim7_witness :
    ((prevSong stateDeep true).audio.currentTime = 0 ∧
        (prevSong stateDeep true).currentSongIndex = stateDeep.currentSongIndex) ∧
      ((prevSong demoInit true).currentSongIndex =
          (demoInit.currentSongIndex - 1 + demoInit.songs.length) %
            (demoInit.songs.length : ℤ) ∧
        (demoInit.currentSongIndex = 0 →
          (prevSong demoInit true).currentSongIndex =
            (demoInit.songs.length : ℤ) - 1)) ∧
      prevSong stateEmpty true = stateEmpty := by
  refine ⟨?_, ?_, ?_⟩
  · exact (claim7_prev stateDeep true).1 (by with_unfolding_all decide)
      (by with_unfolding_all decide)
  · exact (claim7_prev demoInit true).2.1 (by with_unfolding_all decide)
      (by with_unfolding_all decide) (by with_unfolding_all decide)
  · exact (claim7_prev stateEmpty true).2.2 (by with_unfolding_all decide)

/-- C8: after `loadSong` with a valid index (given a rendered playlist, one
row per song), exactly one row carries the `active` marker, and a row
carries it exactly when its position equals `currentSongIndex`. -/
theorem claim8_active_row (s : PlayerState) (index : ℤ) (ok : Bool)
    (hlo : 0 ≤ index) (hhi : index < (s.songs.length : ℤ))
    (hr : s.rows.length = s.songs.length) :
    ((loadSong s index ok).rows.countP (fun row => row.active) = 1) ∧
      (∀ (j : ℕ) (row : PlaylistRow),
          (loadSong s index ok).rows.get? j = some row →
            (row.active = true ↔
              (j : ℤ) = (loadSong s index ok).currentSongIndex)) := by
  have hrows := loadSong_rows_of_valid s index ok hlo hhi
  have hidx := loadSong_currentSongIndex_of_valid s index ok hlo hhi
  constructor
  · rw [hrows, setActive_countP, hr, if_pos (by push_cast; omega)]
  · intro j row hj
    rw [hrows, setActive_get?] at hj
    obtain ⟨row0, _, hmap⟩ := Option.map_eq_some'.mp hj
    rw [hidx, ← hmap]
    simp

/-- Witness for C8: loading index 1 of the freshly initialized two-track
player; the rendered row at position 1 is the marked one. -/
theorem claim8_witness :
    ((loadSong demoInit 1 true).rows.countP (fun row => row.active) = 1) ∧
      (∀ (j : ℕ) (row : PlaylistRow),
          (loadSong demoInit 1 true).rows.get? j = some row →
            (row.active = true ↔
              (j : ℤ) = (loadSong demoInit 1 true).currentSongIndex)) ∧
      (loadSong demoInit 1 true).rows.get? 1 = some
        { titleText := "b.mp3", artistText := "Unknown Artist",
          durationText := "--:--", active := true } := by
  have h := claim8_active_row demoInit 1 true (by norm_num)
    (by with_unfolding_all decide) (by with_unfolding_all decide)
  exact ⟨h.1, h.2, by with_unfolding_all decide⟩

/-- Helper for C9: on a non-negative whole number of seconds, `formatTime`
renders `⌊total/60⌋` minutes, a colon, and the remaining seconds padded to
two digits. -/
theorem formatTime_nat (m sec : ℕ) (h : sec < 60) :
    formatTime ((60 * m + sec : ℕ) : ℚ) =
      toString (m : ℤ) ++ ":" ++ padTwo (toString (sec : ℤ)) := by
  have hfl : ⌊((60 * m + sec : ℕ) : ℚ) / 60⌋ = (m : ℤ) := by
    rw [Int.floor_eq_iff]
    constructor
    · rw [le_div_iff₀ (by norm_num : (0 : ℚ) < 60)]
      push_cast
      linarith
    · rw [div_lt_iff₀ (by norm_num : (0 : ℚ) < 60)]
      push_cast
      have hs : (sec : ℚ) < 60 := by exact_mod_cast h
      linarith
  have htr : jsTrunc (((60 * m + sec : ℕ) : ℚ) / 60) = (m : ℤ) := by
    unfold jsTrunc
    rw [if_pos (by positivity), hfl]
  have hmod : jsFmod ((60 * m + sec : ℕ) : ℚ) 60 = (sec : ℚ) := by
    unfold jsFmod
    rw [htr]
    push_cast
    ring
  unfold formatTime
  rw [hmod, hfl, Int.floor_natCast]

/-- C9 (amended): `renderPlaylist` renders exactly one row per track, in
list order; a row shows the track's title (or its filename when the title
is absent or empty), its artist (or `'Unknown Artist'` when absent or
empty), and its duration formatted as minutes:seconds with the seconds
zero-padded to two digits (or `'--:--'` when the duration is absent or
zero, since the source tests JS truthiness). -/
theorem claim9_render_playlist (s : PlayerState) :
    ((renderPlaylist s).rows.length = s.songs.length) ∧
      (∀ (i : ℕ) (song : Song), s.songs.get? i = some song →
        (renderPlaylist s).rows.get? i = some
          { titleText :=
              match song.title with
              | none => song.filename
              | some t => if t = "" then song.filename else t,
            artistText :=
              match song.artist with
              | none => "Unknown Artist"
              | some a => if a = "" then "Unknown Artist" else a,
            durationText :=
              match song.duration with
              | none => "--:--"
              | some d => if d = 0 then "--:--" else formatTime d,
            active := false }) ∧
      (∀ m sec : ℕ, sec < 60 →
        formatTime ((60 * m + sec : ℕ) : ℚ) =
          toString (m : ℤ) ++ ":" ++ padTwo (toString (sec : ℤ))) := by
  refine ⟨by simp, ?_, fun m sec h => formatTime_nat m sec h⟩
  intro i song hg
  rw [renderPlaylist_rows, List.get?_map, hg]
  rfl

/-- Witness for C9 (amended): the first rendered row of the concrete
two-track player and a concrete `formatTime` rendering. -/
theorem claim9_witness :
    ((renderPlaylist demoInit).rows.length = demoInit.songs.length) ∧
      (renderPlaylist demoInit).rows.get? 0 = some
        { titleText :=
            match songA.title with
            | none => songA.filename
            | some t => if t = "" then songA.filename else t,
          artistText :=
            match songA.artist with
            | none => "Unknown Artist"
            | some a => if a = "" then "Unknown Artist" else a,
          durationText :=
            match songA.duration with
            | none => "--:--"
            | some d => if d = 0 then "--:--" else formatTime d,
          active := false } ∧
      formatTime ((60 * 1 + 1 : ℕ) : ℚ) =
        toString (1 : ℤ) ++ ":" ++ padTwo (toString (1 : ℤ)) :=
  ⟨(claim9_render_playlist demoInit).1,
    (claim9_render_playlist demoInit).2.1 0 songA (by with_unfolding_all decide),
    (claim9_render_playlist demoInit).2.2 1 1 (by norm_num)⟩

/-- C9 counterexample to the claim as stated: on a track whose optional
fields are present but JS-falsy (`songZ`: empty title, empty artist,
duration `0`) the rendered row differs from the claimed one in all three
text nodes; in particular the present duration `0` renders `'--:--'`, not
`formatTime 0 = '0:00'`. -/
theorem claim9_counterexample :
    createPlaylistItem songZ ≠ claimedRow songZ ∧
      (createPlaylistItem songZ).durationText = "--:--" ∧
      (claimedRow songZ).durationText = "0:00" ∧
      (createPlaylistItem songZ).titleText = "z.mp3" ∧
      (claimedRow songZ).titleText = "" ∧
      (createPlaylistItem songZ).artistText = "Unknown Artist" ∧
      (claimedRow songZ).artistText = "" := by
  with_unfolding_all decide
